import Mathlib

/-!
Shallow embedding of the `cfdns` Go package (a thin Cloudflare DNS HTTP
client, `src/cfdns.go`) in Lean 4.

The embedding models:
- a JSON value type and Go's `encoding/json` compact serialization of the
  package's structs (field order as declared, `omitempty` with Go's notion
  of emptiness, under which a `time.Time` struct value is never empty and so
  is always emitted, and Go's default HTML escaping of `<`, `>`, `&`);
- decoding of the `cfZoneResult` / `cfDNSResult` envelopes into `Zone` /
  `DNSRecord` values, with Go's case-insensitive field-name matching,
  unknown keys ignored, `null` handled as in `encoding/json`;
- the HTTP layer as an explicit transport oracle
  `Transport := HttpRequest → Except String HttpResponse`; each operation is
  a pure function of the client, the transport and its arguments, returning
  the operation's result together with the list of requests it issued and
  the list of responses whose bodies it closed, mirroring the Go control
  flow statement by statement.

Abstractions (noted where they apply): `time.Time` is carried as its
RFC 3339 string form and format validation on decode, and the year-range
check on encode, are not modelled; URL-parse validation inside
`http.NewRequest` is not modelled (the five operations use fixed valid
methods). No claim depends on these.
-/

namespace Cfdns

/-- JSON values, as produced/consumed by Go's `encoding/json`.
Numbers are restricted to integers: the only numeric field in the package
is the `int` field `TTL`. -/
inductive Json where
  | null : Json
  | bool : Bool → Json
  | num : Int → Json
  | str : String → Json
  | arr : List Json → Json
  | obj : List (String × Json) → Json
  deriving Repr

/-- Lowercase hex digit, as used by `encoding/json` in `\u00XX` escapes. -/
def hexDigit (n : Nat) : Char :=
  if n < 10 then Char.ofNat (48 + n) else Char.ofNat (87 + n)

/-- Escaping of a single character inside a JSON string, following
`encoding/json`'s default encoder (HTML escaping enabled). -/
def escapeChar (c : Char) : String :=
  if c = '"' then "\\\""
  else if c = '\\' then "\\\\"
  else if c = '<' then "\\u003c"
  else if c = '>' then "\\u003e"
  else if c = '&' then "\\u0026"
  else if c = '\n' then "\\n"
  else if c = '\r' then "\\r"
  else if c = '\t' then "\\t"
  else if c.toNat < 0x20 then
    String.mk ['\\', 'u', '0', '0', hexDigit (c.toNat / 16), hexDigit (c.toNat % 16)]
  else String.singleton c

/-- Escape the characters of a Go string for JSON output. -/
def escapeString (s : String) : String :=
  s.data.foldl (fun acc c => acc ++ escapeChar c) ""

/-- A JSON string literal: quotes around the escaped content. -/
def jsonQuote (s : String) : String :=
  "\"" ++ escapeString s ++ "\""

mutual

/-- Compact JSON serialization, as `json.Marshal` prints a value:
no whitespace, fields in order. -/
def jsonToString : Json → String
  | .null => "null"
  | .bool true => "true"
  | .bool false => "false"
  | .num n => toString n
  | .str s => jsonQuote s
  | .arr xs => "[" ++ jsonArrToString xs ++ "]"
  | .obj fs => "\x7b" ++ jsonObjToString fs ++ "\x7d"

/-- Comma-separated serialization of array elements. -/
def jsonArrToString : List Json → String
  | [] => ""
  | [x] => jsonToString x
  | x :: xs => jsonToString x ++ "," ++ jsonArrToString xs

/-- Comma-separated serialization of object members. -/
def jsonObjToString : List (String × Json) → String
  | [] => ""
  | [kv] => jsonQuote kv.1 ++ ":" ++ jsonToString kv.2
  | kv :: kvs => jsonQuote kv.1 ++ ":" ++ jsonToString kv.2 ++ "," ++ jsonObjToString kvs

end

/-- Look up a key in a JSON object (first occurrence), `none` for a
non-object or a missing key. -/
def jsonObjGet (j : Json) (k : String) : Option Json :=
  match j with
  | .obj fs => (fs.find? (fun kv => kv.1 == k)).map (fun kv => kv.2)
  | _ => none

/-- A `time.Time` value carried as its RFC 3339 serialization; the zero
time marshals as `"0001-01-01T00:00:00Z"`, which is the default. -/
structure GoTime where
  rfc3339 : String := "0001-01-01T00:00:00Z"
  deriving Repr, DecidableEq

/-- A Go `interface{}` value held in `DNSRecord.Data`: either a value that
marshals to some JSON, or a value `json.Marshal` rejects (func, chan,
complex, cyclic, ...), carried with the type description that appears in
the error. -/
inductive GoValue where
  | json : Json → GoValue
  | unmarshalable : String → GoValue
  deriving Repr

/-- `json.Marshal` on an `interface{}` value. -/
def marshalGoValue : GoValue → Except String Json
  | .json j => .ok j
  | .unmarshalable d => .error ("json: unsupported type: " ++ d)

/-- The `DNSRecord` struct of `src/cfdns.go` (field `Type` needs guillemet
quoting in Lean). Defaults are Go zero values. -/
structure DNSRecord where
  Name : String := ""
  «Type» : String := ""
  Content : String := ""
  ID : String := ""
  TTL : Int := 0
  Proxiable : Bool := false
  Proxied : Bool := false
  Locked : Bool := false
  ZoneID : String := ""
  ZoneName : String := ""
  Created : GoTime := {}
  Modified : GoTime := {}
  Data : Option GoValue := none
  deriving Repr

/-- The `Zone` struct of `src/cfdns.go`. Defaults are Go zero values. -/
structure Zone where
  ID : String := ""
  Name : String := ""
  DevelopmentMode : Int := 0
  OriginalRegistrar : String := ""
  OriginalDNSHost : String := ""
  OriginalNameServers : List String := []
  Created : GoTime := {}
  Modified : GoTime := {}
  NameServers : List String := []
  Status : String := ""
  Paused : Bool := false
  «Type» : String := ""
  Checked : GoTime := {}
  deriving Repr, DecidableEq

/-- `json.Marshal` on a `DNSRecord`, per the struct tags in
`src/cfdns.go`: fields in declaration order; `omitempty` drops an empty
string, a zero int, and a nil interface, but never a `time.Time`
struct value (a struct is not "empty" to `encoding/json`), so
`created_on` and `modified_on` are always present; the bool fields
carry no `omitempty` and are always present. Fails exactly when the
`Data` interface holds an unmarshalable value. -/
def marshalDNSRecordJson (r : DNSRecord) : Except String Json :=
  match r.Data with
  | none =>
    .ok (.obj (
      [("name", .str r.Name), ("type", .str r.«Type»), ("content", .str r.Content)]
      ++ (if r.ID = "" then [] else [("id", .str r.ID)])
      ++ (if r.TTL = 0 then [] else [("ttl", .num r.TTL)])
      ++ [("proxiable", .bool r.Proxiable), ("proxied", .bool r.Proxied),
          ("locked", .bool r.Locked)]
      ++ (if r.ZoneID = "" then [] else [("zone_id", .str r.ZoneID)])
      ++ (if r.ZoneName = "" then [] else [("zone_name", .str r.ZoneName)])
      ++ [("created_on", .str r.Created.rfc3339),
          ("modified_on", .str r.Modified.rfc3339)]))
  | some v =>
    match marshalGoValue v with
    | .error e => .error e
    | .ok dj =>
      .ok (.obj (
        [("name", .str r.Name), ("type", .str r.«Type»), ("content", .str r.Content)]
        ++ (if r.ID = "" then [] else [("id", .str r.ID)])
        ++ (if r.TTL = 0 then [] else [("ttl", .num r.TTL)])
        ++ [("proxiable", .bool r.Proxiable), ("proxied", .bool r.Proxied),
            ("locked", .bool r.Locked)]
        ++ (if r.ZoneID = "" then [] else [("zone_id", .str r.ZoneID)])
        ++ (if r.ZoneName = "" then [] else [("zone_name", .str r.ZoneName)])
        ++ [("created_on", .str r.Created.rfc3339),
            ("modified_on", .str r.Modified.rfc3339),
            ("data", dj)]))

/-- `jsonReader` of `src/cfdns.go` applied to a `DNSRecord`: the marshalled
bytes as a string, or the marshal error. -/
def marshalDNSRecord (r : DNSRecord) : Except String String :=
  (marshalDNSRecordJson r).map jsonToString

/-- Go's case-insensitive field-name match used by `encoding/json` when an
incoming key has no exact field match (ASCII folding suffices for the
tag names in this package). -/
def keyFold (a b : String) : Bool :=
  a.data.map Char.toLower == b.data.map Char.toLower

/-- Unmarshal a JSON value into a `time.Time` field: a string is accepted
(format validation abstracted), `null` is a no-op, anything else errors. -/
def setGoTime (t : GoTime) (v : Json) : Except String GoTime :=
  match v with
  | .str s => .ok ⟨s⟩
  | .null => .ok t
  | _ => .error "json: cannot unmarshal into time.Time"

/-- Unmarshal a JSON value into a `[]string` field: `null` sets the nil
slice, an array must hold strings (a `null` element leaves the zero
string), anything else errors. -/
def decodeStringList : Json → Except String (List String)
  | .null => .ok []
  | .arr xs =>
    xs.mapM (fun x =>
      match x with
      | .str s => .ok s
      | .null => .ok ""
      | _ => .error "json: cannot unmarshal into string")
  | _ => .error "json: cannot unmarshal into []string"

/-- Apply one JSON object member to a `Zone` being decoded, per
`encoding/json`: the key is matched case-insensitively against the
field tags, unknown keys are ignored, `null` into a scalar is a no-op,
and a type mismatch errors. -/
def setZoneField (z : Zone) (k : String) (v : Json) : Except String Zone :=
  if keyFold k "id" then
    match v with
    | .str s => .ok { z with ID := s }
    | .null => .ok z
    | _ => .error "json: cannot unmarshal into string"
  else if keyFold k "name" then
    match v with
    | .str s => .ok { z with Name := s }
    | .null => .ok z
    | _ => .error "json: cannot unmarshal into string"
  else if keyFold k "development_mode" then
    match v with
    | .num n => .ok { z with DevelopmentMode := n }
    | .null => .ok z
    | _ => .error "json: cannot unmarshal into int"
  else if keyFold k "original_registrar" then
    match v with
    | .str s => .ok { z with OriginalRegistrar := s }
    | .null => .ok z
    | _ => .error "json: cannot unmarshal into string"
  else if keyFold k "original_dnshost" then
    match v with
    | .str s => .ok { z with OriginalDNSHost := s }
    | .null => .ok z
    | _ => .error "json: cannot unmarshal into string"
  else if keyFold k "original_name_servers" then
    (decodeStringList v).map (fun l => { z with OriginalNameServers := l })
  else if keyFold k "created_on" then
    (setGoTime z.Created v).map (fun t => { z with Created := t })
  else if keyFold k "modified_on" then
    (setGoTime z.Modified v).map (fun t => { z with Modified := t })
  else if keyFold k "name_servers" then
    (decodeStringList v).map (fun l => { z with NameServers := l })
  else if keyFold k "status" then
    match v with
    | .str s => .ok { z with Status := s }
    | .null => .ok z
    | _ => .error "json: cannot unmarshal into string"
  else if keyFold k "paused" then
    match v with
    | .bool b => .ok { z with Paused := b }
    | .null => .ok z
    | _ => .error "json: cannot unmarshal into bool"
  else if keyFold k "type" then
    match v with
    | .str s => .ok { z with «Type» := s }
    | .null => .ok z
    | _ => .error "json: cannot unmarshal into string"
  else if keyFold k "checked_on" then
    (setGoTime z.Checked v).map (fun t => { z with Checked := t })
  else
    .ok z

/-- Unmarshal one JSON value into a `Zone`: an object folds its members
into the zero value, `null` is a no-op on the zero value, anything
else errors. -/
def decodeZone (j : Json) : Except String Zone :=
  match j with
  | .obj fs => fs.foldlM (fun z kv => setZoneField z kv.1 kv.2) {}
  | .null => .ok {}
  | _ => .error "json: cannot unmarshal into Zone"

/-- Apply one JSON object member to a `DNSRecord` being decoded
(same `encoding/json` rules as `setZoneField`; `data` is the
`interface{}` field and accepts any JSON value, `null` making it nil). -/
def setDNSRecordField (r : DNSRecord) (k : String) (v : Json) : Except String DNSRecord :=
  if keyFold k "name" then
    match v with
    | .str s => .ok { r with Name := s }
    | .null => .ok r
    | _ => .error "json: cannot unmarshal into string"
  else if keyFold k "type" then
    match v with
    | .str s => .ok { r with «Type» := s }
    | .null => .ok r
    | _ => .error "json: cannot unmarshal into string"
  else if keyFold k "content" then
    match v with
    | .str s => .ok { r with Content := s }
    | .null => .ok r
    | _ => .error "json: cannot unmarshal into string"
  else if keyFold k "id" then
    match v with
    | .str s => .ok { r with ID := s }
    | .null => .ok r
    | _ => .error "json: cannot unmarshal into string"
  else if keyFold k "ttl" then
    match v with
    | .num n => .ok { r with TTL := n }
    | .null => .ok r
    | _ => .error "json: cannot unmarshal into int"
  else if keyFold k "proxiable" then
    match v with
    | .bool b => .ok { r with Proxiable := b }
    | .null => .ok r
    | _ => .error "json: cannot unmarshal into bool"
  else if keyFold k "proxied" then
    match v with
    | .bool b => .ok { r with Proxied := b }
    | .null => .ok r
    | _ => .error "json: cannot unmarshal into bool"
  else if keyFold k "locked" then
    match v with
    | .bool b => .ok { r with Locked := b }
    | .null => .ok r
    | _ => .error "json: cannot unmarshal into bool"
  else if keyFold k "zone_id" then
    match v with
    | .str s => .ok { r with ZoneID := s }
    | .null => .ok r
    | _ => .error "json: cannot unmarshal into string"
  else if keyFold k "zone_name" then
    match v with
    | .str s => .ok { r with ZoneName := s }
    | .null => .ok r
    | _ => .error "json: cannot unmarshal into string"
  else if keyFold k "created_on" then
    (setGoTime r.Created v).map (fun t => { r with Created := t })
  else if keyFold k "modified_on" then
    (setGoTime r.Modified v).map (fun t => { r with Modified := t })
  else if keyFold k "data" then
    match v with
    | .null => .ok { r with Data := none }
    | j => .ok { r with Data := some (.json j) }
  else
    .ok r

/-- Unmarshal one JSON value into a `DNSRecord`. -/
def decodeDNSRecord (j : Json) : Except String DNSRecord :=
  match j with
  | .obj fs => fs.foldlM (fun r kv => setDNSRecordField r kv.1 kv.2) {}
  | .null => .ok {}
  | _ => .error "json: cannot unmarshal into DNSRecord"

/-- Decode the `cfZoneResult` envelope from an HTTP body
(`none` models a body that is not well-formed JSON): the untagged
`Result` field matches the key `result` case-insensitively; a missing
`result` leaves the nil slice, an envelope that is not a JSON
object (other than `null`) errors. -/
def decodeCfZoneResult : Option Json → Except String (List Zone)
  | none => .error "invalid JSON"
  | some .null => .ok []
  | some (.obj fs) =>
    fs.foldlM (fun acc kv =>
      if keyFold kv.1 "Result" then
        match kv.2 with
        | .null => .ok []
        | .arr xs => xs.mapM decodeZone
        | _ => .error "json: cannot unmarshal into []Zone"
      else .ok acc) []
  | some _ => .error "json: cannot unmarshal into cfZoneResult"

/-- Decode the `cfDNSResult` envelope from an HTTP body (same shape as
`decodeCfZoneResult`, with `DNSRecord` elements). -/
def decodeCfDNSResult : Option Json → Except String (List DNSRecord)
  | none => .error "invalid JSON"
  | some .null => .ok []
  | some (.obj fs) =>
    fs.foldlM (fun acc kv =>
      if keyFold kv.1 "Result" then
        match kv.2 with
        | .null => .ok []
        | .arr xs => xs.mapM decodeDNSRecord
        | _ => .error "json: cannot unmarshal into []DNSRecord"
      else .ok acc) []
  | some _ => .error "json: cannot unmarshal into cfDNSResult"

/-- An outbound HTTP request as `doRequest` builds it: method, full URL,
headers in the order they were set, and the serialized body
(`none` models a nil body reader). -/
structure HttpRequest where
  method : String
  url : String
  headers : List (String × String)
  body : Option String
  deriving Repr, DecidableEq

/-- An HTTP response as seen by the client: `statusCode` is
`resp.StatusCode`, `status` is the status line text `resp.Status`
(e.g. `"403 Forbidden"`), and `body` is the response body, already
split into well-formed JSON (`some j`) or not (`none`). -/
structure HttpResponse where
  statusCode : Nat
  status : String
  body : Option Json
  deriving Repr

/-- The environment's HTTP transport (`http.DefaultClient.Do`): maps a
request to a response, or to a transport error message. -/
def Transport : Type :=
  HttpRequest → Except String HttpResponse

/-- The `Client` struct of `src/cfdns.go`. -/
structure Client where
  apiBase : String
  authEmail : String
  authKey : String
  deriving Repr, DecidableEq

/-- The `defaultAPIBase` constant. -/
def defaultAPIBase : String :=
  "https://api.cloudflare.com/client/v4"

/-- `NewClient` of `src/cfdns.go`: pure construction, no request issued. -/
def NewClient (authEmail authKey : String) : Client :=
  { apiBase := defaultAPIBase, authEmail := authEmail, authKey := authKey }

/-- The outcome of one operation invocation: its returned value or error,
the client value as the operation leaves it (the Go methods never
assign to `*c`, so it is the input client on every path), the requests
issued, and the responses whose bodies were closed. -/
structure OpResult (α : Type) where
  result : Except String α
  client : Client
  requests : List HttpRequest
  closed : List HttpResponse

/-- The request `doRequest` builds: base URL with the path appended, the
two authentication headers in the order the Go code sets them. -/
def mkRequest (c : Client) (method url : String) (body : Option String) : HttpRequest :=
  { method := method
    url := c.apiBase ++ url
    headers := [("X-Auth-Email", c.authEmail), ("X-Auth-Key", c.authKey)]
    body := body }

/-- `doRequest` of `src/cfdns.go`: builds the request (URL-parse
validation abstracted; the five operations use fixed valid methods)
and hands it to the transport, returning its answer. The request
issued is `mkRequest c method url body`; each operation records it in
its `requests` trace. -/
def doRequest (c : Client) (t : Transport) (method url : String) (body : Option String) :
    Except String HttpResponse :=
  t (mkRequest c method url body)

/-- The query path `ListZones` requests. -/
def zonesPath : String :=
  "/zones?per_page=1000"

/-- The query path `ListDNSRecords` requests for a zone. -/
def dnsRecordsListPath (zoneID : String) : String :=
  "/zones/" ++ zoneID ++ "/dns_records?per_page=1000"

/-- The collection path `CreateDNSRecord` posts to. -/
def dnsRecordsPath (zoneID : String) : String :=
  "/zones/" ++ zoneID ++ "/dns_records"

/-- The per-record path `UpdateDNSRecord` and `DeleteDNSRecord` use. -/
def dnsRecordPath (zoneID recID : String) : String :=
  "/zones/" ++ zoneID ++ "/dns_records/" ++ recID

/-- `ListZones` of `src/cfdns.go`: GET the zones collection, then decode
the body into `cfZoneResult` whatever the status code; the deferred
`resp.Body.Close()` runs on both the decode-error and success paths. -/
def ListZones (c : Client) (t : Transport) : OpResult (List Zone) :=
  match doRequest c t "GET" zonesPath none with
  | .error e =>
    { result := .error e, client := c,
      requests := [mkRequest c "GET" zonesPath none], closed := [] }
  | .ok resp =>
    match decodeCfZoneResult resp.body with
    | .error e =>
      { result := .error e, client := c,
        requests := [mkRequest c "GET" zonesPath none], closed := [resp] }
    | .ok zs =>
      { result := .ok zs, client := c,
        requests := [mkRequest c "GET" zonesPath none], closed := [resp] }

/-- `ListDNSRecords` of `src/cfdns.go`: like `ListZones`, on the zone's
DNS-records collection. -/
def ListDNSRecords (c : Client) (t : Transport) (zoneID : String) : OpResult (List DNSRecord) :=
  match doRequest c t "GET" (dnsRecordsListPath zoneID) none with
  | .error e =>
    { result := .error e, client := c,
      requests := [mkRequest c "GET" (dnsRecordsListPath zoneID) none], closed := [] }
  | .ok resp =>
    match decodeCfDNSResult resp.body with
    | .error e =>
      { result := .error e, client := c,
        requests := [mkRequest c "GET" (dnsRecordsListPath zoneID) none], closed := [resp] }
    | .ok rs =>
      { result := .ok rs, client := c,
        requests := [mkRequest c "GET" (dnsRecordsListPath zoneID) none], closed := [resp] }

/-- `CreateDNSRecord` of `src/cfdns.go`: marshals a record holding only
name, type and content, discarding the marshal error (`body, _ :=` —
a nil body on failure), POSTs it, closes the body, and succeeds iff
the status code is 200, otherwise returns `resp.Status` as the error. -/
def CreateDNSRecord (c : Client) (t : Transport)
    (zoneID name rectype content : String) : OpResult Unit :=
  let body := (marshalDNSRecord { Name := name, «Type» := rectype, Content := content }).toOption
  match doRequest c t "POST" (dnsRecordsPath zoneID) body with
  | .error e =>
    { result := .error e, client := c,
      requests := [mkRequest c "POST" (dnsRecordsPath zoneID) body], closed := [] }
  | .ok resp =>
    { result := if resp.statusCode = 200 then .ok () else .error resp.status
      client := c, requests := [mkRequest c "POST" (dnsRecordsPath zoneID) body]
      closed := [resp] }

/-- `UpdateDNSRecord` of `src/cfdns.go`: marshals the given record,
returning the marshal error before any request; then PUTs to the
record's path (ZoneID and ID from the record), closes the body, and
succeeds iff the status code is 200. -/
def UpdateDNSRecord (c : Client) (t : Transport) (rec : DNSRecord) : OpResult Unit :=
  match marshalDNSRecord rec with
  | .error e => { result := .error e, client := c, requests := [], closed := [] }
  | .ok body =>
    match doRequest c t "PUT" (dnsRecordPath rec.ZoneID rec.ID) (some body) with
    | .error e =>
      { result := .error e, client := c,
        requests := [mkRequest c "PUT" (dnsRecordPath rec.ZoneID rec.ID) (some body)]
        closed := [] }
    | .ok resp =>
      { result := if resp.statusCode = 200 then .ok () else .error resp.status
        client := c, requests := [mkRequest c "PUT" (dnsRecordPath rec.ZoneID rec.ID) (some body)]
        closed := [resp] }

/-- `DeleteDNSRecord` of `src/cfdns.go`: DELETE on the record's path with
no body, close the body, succeed iff the status code is 200. -/
def DeleteDNSRecord (c : Client) (t : Transport) (rec : DNSRecord) : OpResult Unit :=
  match doRequest c t "DELETE" (dnsRecordPath rec.ZoneID rec.ID) none with
  | .error e =>
    { result := .error e, client := c,
      requests := [mkRequest c "DELETE" (dnsRecordPath rec.ZoneID rec.ID) none], closed := [] }
  | .ok resp =>
    { result := if resp.statusCode = 200 then .ok () else .error resp.status
      client := c, requests := [mkRequest c "DELETE" (dnsRecordPath rec.ZoneID rec.ID) none]
      closed := [resp] }

/-! ### Concrete helpers used across witnesses and counterexamples -/

/-- The JSON object `CreateDNSRecord` marshals for given name, type and
content (only those three fields populated; everything else the Go
zero value). -/
def createPayloadJson (name rectype content : String) : Json :=
  .obj [("name", .str name), ("type", .str rectype), ("content", .str content),
        ("proxiable", .bool false), ("proxied", .bool false), ("locked", .bool false),
        ("created_on", .str "0001-01-01T00:00:00Z"),
        ("modified_on", .str "0001-01-01T00:00:00Z")]

/-- A 200 OK response with an empty-object body. -/
def respOk200 : HttpResponse :=
  { statusCode := 200, status := "200 OK", body := some (.obj []) }

/-- A transport answering every request with `respOk200`. -/
def tOk200 : Transport :=
  fun _ => .ok respOk200

/-- A 403 Forbidden response. -/
def respForbidden : HttpResponse :=
  { statusCode := 403, status := "403 Forbidden", body := none }

/-- A transport answering every request with `respForbidden`. -/
def tForbidden : Transport :=
  fun _ => .ok respForbidden

/-- The one-zone list body
`\x7b"result":[\x7b"id":"z1","name":"example.com"\x7d]\x7d` as a JSON value. -/
def zonesZ1Body : Json :=
  .obj [("result", .arr [.obj [("id", .str "z1"), ("name", .str "example.com")]])]

/-- A transport answering every request with status 200 and `zonesZ1Body`. -/
def tZonesZ1 : Transport :=
  fun _ => .ok { statusCode := 200, status := "200 OK", body := some zonesZ1Body }

/-- A one-record list body whose record carries no `id` and no `zone_id`:
`\x7b"result":[\x7b"name":"a","type":"A","content":"b"\x7d]\x7d` as a JSON value. -/
def recNoIDBody : Json :=
  .obj [("result", .arr [.obj [("name", .str "a"), ("type", .str "A"), ("content", .str "b")]])]

/-- A transport answering every request with status 200 and `recNoIDBody`. -/
def tRecNoID : Transport :=
  fun _ => .ok { statusCode := 200, status := "200 OK", body := some recNoIDBody }

/-- The record `ListDNSRecords` decodes from `tRecNoID`'s body: name, type
and content set, `ID` and `ZoneID` left at the zero value `""`. -/
def recNoID : DNSRecord :=
  { Name := "a", «Type» := "A", Content := "b" }

/-- A record whose `Data` interface holds a value `json.Marshal` rejects
(a `func()` value). -/
def recBadData : DNSRecord :=
  { Name := "a", «Type» := "A", Content := "b", ID := "r1", ZoneID := "z1",
    Data := some (.unmarshalable "func()") }

/-! ### Claims -/

/-- **C8.** The client's configuration is set once at construction — a pure
function of the two credentials, involving no transport — and no
operation mutates it: on every path each of the five operations leaves
the client exactly as `NewClient` produced it. -/
theorem client_config_immutable (email key : String) (c : Client) (t : Transport)
    (zoneID name rectype content : String) (rec : DNSRecord) :
    NewClient email key = { apiBase := defaultAPIBase, authEmail := email, authKey := key } ∧
    (ListZones c t).client = c ∧
    (ListDNSRecords c t zoneID).client = c ∧
    (CreateDNSRecord c t zoneID name rectype content).client = c ∧
    (UpdateDNSRecord c t rec).client = c ∧
    (DeleteDNSRecord c t rec).client = c := by
  refine ⟨rfl, ?_, ?_, ?_, ?_, ?_⟩
  · cases h : t (mkRequest c "GET" zonesPath none) with
    | error e => simp [ListZones, doRequest, h]
    | ok resp => cases hd : decodeCfZoneResult resp.body <;> simp [ListZones, doRequest, h, hd]
  · cases h : t (mkRequest c "GET" (dnsRecordsListPath zoneID) none) with
    | error e => simp [ListDNSRecords, doRequest, h]
    | ok resp => cases hd : decodeCfDNSResult resp.body <;> simp [ListDNSRecords, doRequest, h, hd]
  · cases h : t (mkRequest c "POST" (dnsRecordsPath zoneID)
        (marshalDNSRecord { Name := name, «Type» := rectype, Content := content }).toOption) <;>
      simp [CreateDNSRecord, doRequest, h]
  · cases hm : marshalDNSRecord rec with
    | error e => simp [UpdateDNSRecord, hm]
    | ok body =>
      cases h : t (mkRequest c "PUT" (dnsRecordPath rec.ZoneID rec.ID) (some body)) <;>
        simp [UpdateDNSRecord, doRequest, hm, h]
  · cases h : t (mkRequest c "DELETE" (dnsRecordPath rec.ZoneID rec.ID) none) <;>
      simp [DeleteDNSRecord, doRequest, h]

/-- **C9.** `CreateDNSRecord` discards the marshal error, but marshalling
its payload — a `DNSRecord` whose populated fields are only the three
strings — succeeds for every input, so the discarded error is always
nil and the body sent is always the serialization of a JSON object. -/
theorem create_marshal_never_fails (c : Client) (t : Transport)
    (zoneID name rectype content : String) :
    marshalDNSRecord { Name := name, «Type» := rectype, Content := content }
      = .ok (jsonToString (createPayloadJson name rectype content)) ∧
    (CreateDNSRecord c t zoneID name rectype content).requests.map (fun r => r.body)
      = [some (jsonToString (createPayloadJson name rectype content))] := by
  have hm : marshalDNSRecord { Name := name, «Type» := rectype, Content := content }
      = .ok (jsonToString (createPayloadJson name rectype content)) := rfl
  refine ⟨hm, ?_⟩
  simp only [CreateDNSRecord, doRequest]
  split <;> rfl

/-- **C10.** When marshalling the record fails in `UpdateDNSRecord`
(possible through the open-ended `Data` field), the marshal error is
returned and no HTTP request is issued. -/
theorem update_marshal_error_no_request (c : Client) (t : Transport)
    (rec : DNSRecord) (e : String) (h : marshalDNSRecord rec = .error e) :
    (UpdateDNSRecord c t rec).result = .error e ∧
    (UpdateDNSRecord c t rec).requests = [] := by
  unfold UpdateDNSRecord
  rw [h]
  exact ⟨rfl, rfl⟩

/-- Witness for C10: a record whose `Data` holds a `func()` value fails to
marshal, and `UpdateDNSRecord` on it returns the marshal error having
issued no request. -/
theorem update_marshal_error_no_request_witness :
    (UpdateDNSRecord (NewClient "e@x" "k") tOk200 recBadData).result
      = .error "json: unsupported type: func()" ∧
    (UpdateDNSRecord (NewClient "e@x" "k") tOk200 recBadData).requests = [] :=
  update_marshal_error_no_request (NewClient "e@x" "k") tOk200 recBadData
    "json: unsupported type: func()" rfl

/-- **C1.** For each of `CreateDNSRecord`, `UpdateDNSRecord` and
`DeleteDNSRecord`, when the transport yields a response (of any body),
the operation returns no error iff the status code is exactly 200, and
on any other status it returns the response's status text as the
error. -/
theorem mutating_ops_succeed_iff_status_200
    (c : Client) (t : Transport) (zoneID name rectype content : String)
    (recU recD : DNSRecord) (body : String) (resp : HttpResponse) :
    (doRequest c t "POST" (dnsRecordsPath zoneID)
        (marshalDNSRecord { Name := name, «Type» := rectype, Content := content }).toOption
          = .ok resp →
      ((CreateDNSRecord c t zoneID name rectype content).result = .ok () ↔
        resp.statusCode = 200) ∧
      (resp.statusCode ≠ 200 →
        (CreateDNSRecord c t zoneID name rectype content).result = .error resp.status)) ∧
    (marshalDNSRecord recU = .ok body →
      doRequest c t "PUT" (dnsRecordPath recU.ZoneID recU.ID) (some body) = .ok resp →
      ((UpdateDNSRecord c t recU).result = .ok () ↔ resp.statusCode = 200) ∧
      (resp.statusCode ≠ 200 → (UpdateDNSRecord c t recU).result = .error resp.status)) ∧
    (doRequest c t "DELETE" (dnsRecordPath recD.ZoneID recD.ID) none = .ok resp →
      ((DeleteDNSRecord c t recD).result = .ok () ↔ resp.statusCode = 200) ∧
      (resp.statusCode ≠ 200 → (DeleteDNSRecord c t recD).result = .error resp.status)) := by
  refine ⟨fun h => ?_, fun hm h => ?_, fun h => ?_⟩
  · by_cases hc : resp.statusCode = 200 <;> simp [CreateDNSRecord, h, hc]
  · by_cases hc : resp.statusCode = 200 <;> simp [UpdateDNSRecord, hm, h, hc]
  · by_cases hc : resp.statusCode = 200 <;> simp [DeleteDNSRecord, h, hc]

/-- Witness for C1: against a transport answering 200 OK, create returns
no error; against one answering 403 Forbidden, delete returns the
error `"403 Forbidden"`. -/
theorem mutating_ops_succeed_iff_status_200_witness :
    (CreateDNSRecord (NewClient "e@x" "k") tOk200 "z1" "n" "A" "c").result = .ok () ∧
    (DeleteDNSRecord (NewClient "e@x" "k") tForbidden recNoID).result = .error "403 Forbidden" :=
  ⟨((mutating_ops_succeed_iff_status_200 (NewClient "e@x" "k") tOk200 "z1" "n" "A" "c"
      recNoID recNoID "b" respOk200).1 rfl).1.mpr rfl,
   ((mutating_ops_succeed_iff_status_200 (NewClient "e@x" "k") tForbidden "z1" "n" "A" "c"
      recNoID recNoID "b" respForbidden).2.2 rfl).2 (by decide)⟩

/-- **C5.** `ListZones` and `ListDNSRecords` never inspect the status
code: the body is fed to the decoder whatever the status, the outcome
is exactly the decode outcome of the body, and two responses sharing a
body give the same outcome whatever their statuses. -/
theorem list_ops_ignore_status (c : Client) (code one two : Nat) (st st1 st2 : String)
    (b : Option Json) (zoneID : String) :
    ((ListZones c (fun _ => .ok { statusCode := code, status := st, body := b })).result
      = decodeCfZoneResult b) ∧
    ((ListDNSRecords c (fun _ => .ok { statusCode := code, status := st, body := b })
        zoneID).result = decodeCfDNSResult b) ∧
    ((ListZones c (fun _ => .ok { statusCode := one, status := st1, body := b })).result
      = (ListZones c (fun _ => .ok { statusCode := two, status := st2, body := b })).result) ∧
    ((ListDNSRecords c (fun _ => .ok { statusCode := one, status := st1, body := b })
        zoneID).result
      = (ListDNSRecords c (fun _ => .ok { statusCode := two, status := st2, body := b })
        zoneID).result) := by
  refine ⟨?_, ?_, ?_, ?_⟩
  · cases hd : decodeCfZoneResult b <;> simp [ListZones, doRequest, hd]
  · cases hd : decodeCfDNSResult b <;> simp [ListDNSRecords, doRequest, hd]
  · cases hd : decodeCfZoneResult b <;> simp [ListZones, doRequest, hd]
  · cases hd : decodeCfDNSResult b <;> simp [ListDNSRecords, doRequest, hd]

/-- A record with `ID` and `ZoneID` populated, as `UpdateDNSRecord` and
`DeleteDNSRecord` expect. -/
def recR1 : DNSRecord :=
  { Name := "a", «Type» := "A", Content := "b", ID := "r1", ZoneID := "z1" }

/-- The JSON object `recR1` marshals to. -/
def recR1Json : Json :=
  .obj [("name", .str "a"), ("type", .str "A"), ("content", .str "b"),
        ("id", .str "r1"),
        ("proxiable", .bool false), ("proxied", .bool false), ("locked", .bool false),
        ("zone_id", .str "z1"),
        ("created_on", .str "0001-01-01T00:00:00Z"),
        ("modified_on", .str "0001-01-01T00:00:00Z")]

/-- **C6.** Every request issued by the five operations of a client built
by `NewClient email key` carries exactly the two headers
`X-Auth-Email: email` and `X-Auth-Key: key`, and its URL is the fixed
base URL with the operation's path appended (the list operations
appending `per_page=1000`). -/
theorem requests_authenticated_and_addressed (email key : String) (t : Transport)
    (zoneID name rectype content : String) (rec : DNSRecord) (body : String) :
    (ListZones (NewClient email key) t).requests
      = [{ method := "GET", url := defaultAPIBase ++ "/zones?per_page=1000",
           headers := [("X-Auth-Email", email), ("X-Auth-Key", key)], body := none }] ∧
    (ListDNSRecords (NewClient email key) t zoneID).requests
      = [{ method := "GET",
           url := defaultAPIBase ++ ("/zones/" ++ zoneID ++ "/dns_records?per_page=1000"),
           headers := [("X-Auth-Email", email), ("X-Auth-Key", key)], body := none }] ∧
    (CreateDNSRecord (NewClient email key) t zoneID name rectype content).requests
      = [{ method := "POST", url := defaultAPIBase ++ ("/zones/" ++ zoneID ++ "/dns_records"),
           headers := [("X-Auth-Email", email), ("X-Auth-Key", key)],
           body := some (jsonToString (createPayloadJson name rectype content)) }] ∧
    (marshalDNSRecord rec = .ok body →
      (UpdateDNSRecord (NewClient email key) t rec).requests
        = [{ method := "PUT",
             url := defaultAPIBase ++ ("/zones/" ++ rec.ZoneID ++ "/dns_records/" ++ rec.ID),
             headers := [("X-Auth-Email", email), ("X-Auth-Key", key)],
             body := some body }]) ∧
    (DeleteDNSRecord (NewClient email key) t rec).requests
      = [{ method := "DELETE",
           url := defaultAPIBase ++ ("/zones/" ++ rec.ZoneID ++ "/dns_records/" ++ rec.ID),
           headers := [("X-Auth-Email", email), ("X-Auth-Key", key)], body := none }] := by
  refine ⟨?_, ?_, ?_, fun hm => ?_, ?_⟩
  · cases h : doRequest (NewClient email key) t "GET" zonesPath none with
    | error e => simp only [ListZones, h]; rfl
    | ok resp =>
      cases hd : decodeCfZoneResult resp.body <;> simp only [ListZones, h, hd] <;> rfl
  · cases h : doRequest (NewClient email key) t "GET" (dnsRecordsListPath zoneID) none with
    | error e => simp only [ListDNSRecords, h]; rfl
    | ok resp =>
      cases hd : decodeCfDNSResult resp.body <;> simp only [ListDNSRecords, h, hd] <;> rfl
  · cases h : doRequest (NewClient email key) t "POST" (dnsRecordsPath zoneID)
        (marshalDNSRecord { Name := name, «Type» := rectype, Content := content }).toOption <;>
      simp only [CreateDNSRecord, h] <;> rfl
  · cases h : doRequest (NewClient email key) t "PUT"
        (dnsRecordPath rec.ZoneID rec.ID) (some body) <;>
      simp only [UpdateDNSRecord, hm, h] <;> rfl
  · cases h : doRequest (NewClient email key) t "DELETE"
        (dnsRecordPath rec.ZoneID rec.ID) none <;>
      simp only [DeleteDNSRecord, h] <;> rfl

/-- Witness for C6: the update conjunct at a concrete record whose
marshalling succeeds. -/
theorem requests_authenticated_and_addressed_witness :
    (UpdateDNSRecord (NewClient "e@x" "k") tOk200 recR1).requests
      = [{ method := "PUT",
           url := defaultAPIBase ++ ("/zones/" ++ recR1.ZoneID ++ "/dns_records/" ++ recR1.ID),
           headers := [("X-Auth-Email", "e@x"), ("X-Auth-Key", "k")],
           body := some (jsonToString recR1Json) }] :=
  (requests_authenticated_and_addressed "e@x" "k" tOk200 "z1" "n" "A" "c"
    recR1 (jsonToString recR1Json)).2.2.2.1 rfl

/-- **C7.** Each operation issues exactly one request per invocation —
zero when `UpdateDNSRecord` fails to marshal the record, before any
request is built — and whenever the transport yields a response, that
response's body is closed (also on non-200 status, which no list
operation inspects, and on decode failure; the `closed` trace records
every `resp.Body.Close()`, deferred or explicit). -/
theorem one_request_and_body_closed (c : Client) (t : Transport)
    (zoneID name rectype content : String) (rec : DNSRecord)
    (resp : HttpResponse) (e body : String) :
    (doRequest c t "GET" zonesPath none = .ok resp →
      (ListZones c t).requests.length = 1 ∧ (ListZones c t).closed = [resp]) ∧
    (doRequest c t "GET" zonesPath none = .error e →
      (ListZones c t).requests.length = 1 ∧ (ListZones c t).closed = []) ∧
    (doRequest c t "GET" (dnsRecordsListPath zoneID) none = .ok resp →
      (ListDNSRecords c t zoneID).requests.length = 1 ∧
      (ListDNSRecords c t zoneID).closed = [resp]) ∧
    (doRequest c t "GET" (dnsRecordsListPath zoneID) none = .error e →
      (ListDNSRecords c t zoneID).requests.length = 1 ∧
      (ListDNSRecords c t zoneID).closed = []) ∧
    (doRequest c t "POST" (dnsRecordsPath zoneID)
        (marshalDNSRecord { Name := name, «Type» := rectype, Content := content }).toOption
          = .ok resp →
      (CreateDNSRecord c t zoneID name rectype content).requests.length = 1 ∧
      (CreateDNSRecord c t zoneID name rectype content).closed = [resp]) ∧
    (doRequest c t "POST" (dnsRecordsPath zoneID)
        (marshalDNSRecord { Name := name, «Type» := rectype, Content := content }).toOption
          = .error e →
      (CreateDNSRecord c t zoneID name rectype content).requests.length = 1 ∧
      (CreateDNSRecord c t zoneID name rectype content).closed = []) ∧
    (marshalDNSRecord rec = .ok body →
      (doRequest c t "PUT" (dnsRecordPath rec.ZoneID rec.ID) (some body) = .ok resp →
        (UpdateDNSRecord c t rec).requests.length = 1 ∧
        (UpdateDNSRecord c t rec).closed = [resp]) ∧
      (doRequest c t "PUT" (dnsRecordPath rec.ZoneID rec.ID) (some body) = .error e →
        (UpdateDNSRecord c t rec).requests.length = 1 ∧
        (UpdateDNSRecord c t rec).closed = [])) ∧
    (marshalDNSRecord rec = .error e →
      (UpdateDNSRecord c t rec).requests = [] ∧ (UpdateDNSRecord c t rec).closed = []) ∧
    (doRequest c t "DELETE" (dnsRecordPath rec.ZoneID rec.ID) none = .ok resp →
      (DeleteDNSRecord c t rec).requests.length = 1 ∧
      (DeleteDNSRecord c t rec).closed = [resp]) ∧
    (doRequest c t "DELETE" (dnsRecordPath rec.ZoneID rec.ID) none = .error e →
      (DeleteDNSRecord c t rec).requests.length = 1 ∧
      (DeleteDNSRecord c t rec).closed = []) := by
  refine ⟨fun h => ?_, fun h => ?_, fun h => ?_, fun h => ?_, fun h => ?_, fun h => ?_,
    fun hm => ⟨fun h => ?_, fun h => ?_⟩, fun hm => ?_, fun h => ?_, fun h => ?_⟩
  · cases hd : decodeCfZoneResult resp.body <;> simp only [ListZones, h, hd] <;> simp
  · simp only [ListZones, h]; simp
  · cases hd : decodeCfDNSResult resp.body <;> simp only [ListDNSRecords, h, hd] <;> simp
  · simp only [ListDNSRecords, h]; simp
  · simp only [CreateDNSRecord, h]; simp
  · simp only [CreateDNSRecord, h]; simp
  · simp only [UpdateDNSRecord, hm, h]; simp
  · simp only [UpdateDNSRecord, hm, h]; simp
  · simp only [UpdateDNSRecord, hm]; simp
  · simp only [DeleteDNSRecord, h]; simp
  · simp only [DeleteDNSRecord, h]; simp

/-- Witness for C7: `ListZones` against the 403 transport (whose body is
not valid JSON, so decoding fails) still issues one request and closes
the response body; `UpdateDNSRecord` on an unmarshalable record issues
no request. -/
theorem one_request_and_body_closed_witness :
    ((ListZones (NewClient "e@x" "k") tForbidden).requests.length = 1 ∧
      (ListZones (NewClient "e@x" "k") tForbidden).closed = [respForbidden]) ∧
    ((UpdateDNSRecord (NewClient "e@x" "k") tForbidden recBadData).requests = [] ∧
      (UpdateDNSRecord (NewClient "e@x" "k") tForbidden recBadData).closed = []) :=
  ⟨(one_request_and_body_closed (NewClient "e@x" "k") tForbidden "z1" "n" "A" "c"
      recBadData respForbidden "err" "b").1 rfl,
   (one_request_and_body_closed (NewClient "e@x" "k") tForbidden "z1" "n" "A" "c"
      recBadData respForbidden "json: unsupported type: func()" "b").2.2.2.2.2.2.2.1 rfl⟩

/-- The request body the spec's create scenario claims is sent for
create-record("z1","test.example.com","A","192.168.0.2"). -/
def claimedCreateBody : String :=
  "\x7b\"name\":\"test.example.com\",\"type\":\"A\",\"content\":\"192.168.0.2\",\"proxiable\":false,\"proxied\":false,\"locked\":false\x7d"

/-- The body the code actually sends for that scenario: the claimed keys
plus `created_on` and `modified_on` holding the zero timestamp, which
`omitempty` never drops for a `time.Time` struct value. -/
def actualCreateBody : String :=
  "\x7b\"name\":\"test.example.com\",\"type\":\"A\",\"content\":\"192.168.0.2\",\"proxiable\":false,\"proxied\":false,\"locked\":false,\"created_on\":\"0001-01-01T00:00:00Z\",\"modified_on\":\"0001-01-01T00:00:00Z\"\x7d"

/-- C2 fails as stated: at the spec's own scenario the body sent is not
the claimed string — it also carries `created_on` and `modified_on`,
two of the fields the claim says are absent. -/
theorem create_body_counterexample :
    (CreateDNSRecord (NewClient "e@x" "k") tOk200 "z1" "test.example.com" "A"
        "192.168.0.2").requests.map (fun r => r.body) ≠ [some claimedCreateBody] ∧
    (CreateDNSRecord (NewClient "e@x" "k") tOk200 "z1" "test.example.com" "A"
        "192.168.0.2").requests.map (fun r => r.body) = [some actualCreateBody] := by
  constructor
  · decide
  · rfl

/-- **C2 (amended).** The JSON body `CreateDNSRecord` sends is the
serialization of a `DNSRecord` with only name, type and content
populated: it contains exactly the keys `name`, `type`, `content`
(with the given values), `proxiable`, `proxied`, `locked` set to
false, and — `omitempty` notwithstanding — `created_on` and
`modified_on` holding the zero timestamp `0001-01-01T00:00:00Z`; the
remaining omitempty fields (`id`, `ttl`, `zone_id`, `zone_name`,
`data`) are absent. At the spec's scenario the body is
`actualCreateBody`. -/
theorem create_request_body_amended (c : Client) (t : Transport)
    (zoneID name rectype content : String) :
    marshalDNSRecordJson { Name := name, «Type» := rectype, Content := content }
      = .ok (createPayloadJson name rectype content) ∧
    (CreateDNSRecord c t zoneID name rectype content).requests.map (fun r => r.body)
      = [some (jsonToString (createPayloadJson name rectype content))] ∧
    jsonToString (createPayloadJson "test.example.com" "A" "192.168.0.2")
      = actualCreateBody := by
  refine ⟨rfl, ?_, rfl⟩
  cases h : doRequest c t "POST" (dnsRecordsPath zoneID)
      (marshalDNSRecord { Name := name, «Type» := rectype, Content := content }).toOption <;>
    simp only [CreateDNSRecord, h] <;> rfl

/-- **C3.** For every zone-list response body that decodes as the
expected envelope, `ListZones` returns exactly the decoded `result`
sequence; an empty `result` array gives the empty list and no error;
the body `\x7b"result":[\x7b"id":"z1","name":"example.com"\x7d]\x7d`
decodes to the single zone (ID "z1", Name "example.com"). -/
theorem ListZones_returns_decoded_result
    (c : Client) (t : Transport) (resp : HttpResponse) (zs : List Zone) :
    (doRequest c t "GET" zonesPath none = .ok resp →
      decodeCfZoneResult resp.body = .ok zs → (ListZones c t).result = .ok zs) ∧
    (doRequest c t "GET" zonesPath none = .ok resp →
      resp.body = some (.obj [("result", .arr [])]) → (ListZones c t).result = .ok []) ∧
    decodeCfZoneResult (some zonesZ1Body)
      = .ok [{ ID := "z1", Name := "example.com" }] := by
  have main : ∀ zs', decodeCfZoneResult resp.body = .ok zs' →
      doRequest c t "GET" zonesPath none = .ok resp → (ListZones c t).result = .ok zs' := by
    intro zs' hd h
    simp only [ListZones, h, hd]
  exact ⟨fun h hd => main zs hd h, fun h hb => main [] (by rw [hb]; rfl) h, by rfl⟩

/-- Witness for C3: against a transport answering the one-zone body,
`ListZones` returns exactly that zone. -/
theorem ListZones_returns_decoded_result_witness :
    (ListZones (NewClient "e@x" "k") tZonesZ1).result
      = .ok [{ ID := "z1", Name := "example.com" }] :=
  (ListZones_returns_decoded_result (NewClient "e@x" "k") tZonesZ1
    { statusCode := 200, status := "200 OK", body := some zonesZ1Body }
    [{ ID := "z1", Name := "example.com" }]).1 rfl (by rfl)

/-- C4 fails as stated: the record decoded from `tRecNoID`'s list
response is obtained from `ListDNSRecords` with its `ID` and `ZoneID`
at the zero value `""`; passing it unmodified to `UpdateDNSRecord`
sends a body with no `id` and no `zone_id` member at all (omitted as
empty), so the body does not contain the identifier values embedded in
the request path `/zones//dns_records/`. -/
theorem update_roundtrip_counterexample :
    (ListDNSRecords (NewClient "e@x" "k") tRecNoID "z1").result = .ok [recNoID] ∧
    (marshalDNSRecordJson recNoID).map (fun j => jsonObjGet j "id") = .ok none ∧
    (marshalDNSRecordJson recNoID).map (fun j => jsonObjGet j "zone_id") = .ok none ∧
    ¬ ((marshalDNSRecordJson recNoID).map (fun j => jsonObjGet j "id")
        = .ok (some (.str recNoID.ID))) ∧
    (UpdateDNSRecord (NewClient "e@x" "k") tOk200 recNoID).requests.map (fun r => r.url)
      = [defaultAPIBase ++ "/zones//dns_records/"] := by
  refine ⟨by rfl, by rfl, by rfl, ?_, by rfl⟩
  intro hcontra
  rw [show (marshalDNSRecordJson recNoID).map (fun j => jsonObjGet j "id") = .ok none
    from by rfl] at hcontra
  simp at hcontra

/-- **C4 (amended).** For every `DNSRecord` whose `ID` and `ZoneID` are
nonempty — as the package documents for records passed to update, and
as list-obtained records normally are — and whose serialization
succeeds, the JSON body `UpdateDNSRecord` sends contains `id` and
`zone_id` members holding exactly the values embedded in the request
path. -/
theorem update_roundtrip_amended (c : Client) (t : Transport) (rec : DNSRecord)
    (bodyJson : Json) (hID : rec.ID ≠ "") (hZ : rec.ZoneID ≠ "")
    (hm : marshalDNSRecordJson rec = .ok bodyJson) :
    jsonObjGet bodyJson "id" = some (.str rec.ID) ∧
    jsonObjGet bodyJson "zone_id" = some (.str rec.ZoneID) ∧
    (UpdateDNSRecord c t rec).requests.map (fun r => r.url)
      = [c.apiBase ++ dnsRecordPath rec.ZoneID rec.ID] := by
  have hmStr : marshalDNSRecord rec = .ok (jsonToString bodyJson) := by
    simp [marshalDNSRecord, hm, Except.map]
  have hreq : (UpdateDNSRecord c t rec).requests.map (fun r => r.url)
      = [c.apiBase ++ dnsRecordPath rec.ZoneID rec.ID] := by
    cases h : doRequest c t "PUT" (dnsRecordPath rec.ZoneID rec.ID)
        (some (jsonToString bodyJson)) <;>
      simp only [UpdateDNSRecord, hmStr, h] <;> rfl
  refine ⟨?_, ?_, hreq⟩ <;>
  · cases hData : rec.Data with
    | none =>
      simp only [marshalDNSRecordJson, hData] at hm
      injection hm with hj
      subst hj
      by_cases hTTL : rec.TTL = 0 <;> by_cases hZN : rec.ZoneName = "" <;>
        simp [jsonObjGet, List.find?_append, List.find?, hID, hZ, hTTL, hZN]
    | some v =>
      cases v with
      | json j =>
        simp only [marshalDNSRecordJson, hData, marshalGoValue] at hm
        injection hm with hj
        subst hj
        by_cases hTTL : rec.TTL = 0 <;> by_cases hZN : rec.ZoneName = "" <;>
          simp [jsonObjGet, List.find?_append, List.find?, hID, hZ, hTTL, hZN]
      | unmarshalable d =>
        simp only [marshalDNSRecordJson, hData, marshalGoValue] at hm
        exact absurd hm (by simp)

/-- Witness for the amended C4: a record with `ID` "r1" and `ZoneID`
"z1" serializes with matching `id` and `zone_id` members, and the
update path embeds the same values. -/
theorem update_roundtrip_amended_witness :
    jsonObjGet recR1Json "id" = some (.str recR1.ID) ∧
    jsonObjGet recR1Json "zone_id" = some (.str recR1.ZoneID) ∧
    (UpdateDNSRecord (NewClient "e@x" "k") tOk200 recR1).requests.map (fun r => r.url)
      = [(NewClient "e@x" "k").apiBase ++ dnsRecordPath recR1.ZoneID recR1.ID] :=
  update_roundtrip_amended (NewClient "e@x" "k") tOk200 recR1 recR1Json
    (by decide) (by decide) (by rfl)

end Cfdns
